import Mathlib

/-!
Shallow embedding of `br_documents/__init__.py`, a validator/value type for
Brazilian CPF numbers (11 decimal digits, the last two being check digits).

The Python class `CPF` normalizes its input (string or integer) to a digit
string, validates it (digit-only, length 11, degenerate-sequence check,
check-digit verification) and stores the digits as a list of integers.
Here the state of a successfully constructed `CPF` object is that list
(`List Nat`), and each Python method becomes a Lean function on it.
Exceptions are modelled with `Except`: `InvalidCPF(msg)` becomes
`PyError.invalidCPF kind` where `kind` names the entry of the
`error_messages` dict whose message is raised, plain `ValueError` becomes
`PyError.valueError`, and `IndexError` (raised by Python list indexing)
becomes `PyError.indexError`.
-/

namespace BrDoc

/-- The three entries of the `CPF.error_messages` dict: `invalid_cpf`,
`only_digits` and `max_digits`. -/
inductive ErrorKind
  | invalid_cpf
  | only_digits
  | max_digits
deriving DecidableEq

/-- Errors the Python code can raise: `InvalidCPF` (a `ValueError` subclass,
always constructed with one of the `error_messages`), a plain `ValueError`,
and `IndexError` from list indexing. -/
inductive PyError
  | invalidCPF (kind : ErrorKind)
  | valueError
  | indexError
deriving DecidableEq

/-- Constructor input: a Python string, or a Python int (possibly negative).
The source also accepts lists/tuples, which reduce to the same canonical
digit string as the corresponding string input. -/
inductive CPFInput
  | str (s : String)
  | int (n : Int)
deriving DecidableEq

/-- Python 2 `unicode.isdigit` restricted to ASCII: true iff the string is
nonempty and every character is a decimal digit (note: `u''.isdigit()` is
`False` in Python). -/
def pyIsdigit (s : String) : Bool :=
  !s.data.isEmpty && s.data.all Char.isDigit

/-- Python `int(c)` for a single decimal-digit character `c`. -/
def pyCharToInt (c : Char) : Nat :=
  c.toNat - 48

/-- Normalization performed at the top of `CPF.__init__`:
for a string, `''.join([str(x) for x in cpf if x not in ('-', '.')])`
keeps every character except `'-'` and `'.'`; for an int,
`unicode(int(cpf))` is its decimal string form (with a leading `'-'`
when negative), which Lean's `toString : Int → String` reproduces. -/
def normalizeInput : CPFInput → String
  | .str s => String.mk (s.data.filter (fun c => c != '-' && c != '.'))
  | .int n => toString n

/-- Python 2 `str` of a list of ints, e.g. `str([1, 2]) = "[1, 2]"`:
bracketed, elements separated by `", "`. -/
def pyStrIntList (xs : List Nat) : String :=
  "[" ++ String.intercalate ", " (xs.map toString) ++ "]"

/-- Python string repetition `s * n`. -/
def pyStrMul (s : String) (n : Nat) : String :=
  String.join (List.replicate n s)

/-- The list `map(lambda x: str(x)*11, range(0,10))` built in `CPF.is_valid`:
the ten strings `"00000000000"`, ..., `"99999999999"`. -/
def invalid_cpfs : List String :=
  (List.range 10).map (fun x => pyStrMul (toString x) 11)

/-- One iteration of the check-digit loop body in `CPF.is_valid`:
`r = sum((len(cpf) + 1 - i) * v for i, v in enumerate(cpf)) % 11`,
then the appended digit is `11 - r` if `r > 1` else `0`. -/
def checkDigitStep (cpf : List Nat) : Nat :=
  let r := ((cpf.enum.map (fun iv => (cpf.length + 1 - iv.1) * iv.2)).sum) % 11
  if r > 1 then 11 - r else 0

/-- The `while len(cpf) < 11` loop of `CPF.is_valid`, with explicit fuel:
each iteration appends `checkDigitStep cpf`, so the length grows by one per
step and 11 units of fuel always suffice (see `deriveLoop_fuel_irrelevant`). -/
def deriveLoop : Nat → List Nat → List Nat
  | 0, cpf => cpf
  | fuel + 1, cpf => if cpf.length < 11 then deriveLoop fuel (cpf ++ [checkDigitStep cpf]) else cpf

/-- The full check-digit derivation applied to a working sequence. -/
def derive (cpf : List Nat) : List Nat :=
  deriveLoop 11 cpf

/-- The `CPF.is_valid` property: raises `ValueError("Where is the cpf?")` on a
falsy digit list, raises `InvalidCPF(error_messages['invalid_cpf'])` when
`str(self.cpf)` occurs in `invalid_cpfs` (note `self.cpf` is a list of ints at
this point, so `str` renders it as `"[d, d, ...]"`), otherwise rebuilds the
last two digits from `self.cpf[:9]` and returns whether the derived list
equals the stored one. -/
def CPF.is_valid (cpf : List Nat) : Except PyError Bool :=
  if cpf.isEmpty then .error .valueError
  else if invalid_cpfs.contains (pyStrIntList cpf) then .error (.invalidCPF .invalid_cpf)
  else .ok (derive (cpf.take 9) == cpf)

/-- `CPF.__init__`: normalize the input, check `isdigit` (else `only_digits`), check
length 11 (else `max_digits`), convert to a list of ints with `map(int, ...)`,
then require `is_valid` (else `invalid_cpf`); on success the stored state is
the digit list. -/
def CPF.init (input : CPFInput) : Except PyError (List Nat) :=
  let cpf := normalizeInput input
  if !pyIsdigit cpf then .error (.invalidCPF .only_digits)
  else if cpf.length != 11 then .error (.invalidCPF .max_digits)
  else
    let digits := cpf.data.map pyCharToInt
    match CPF.is_valid digits with
    | .error e => .error e
    | .ok b => if !b then .error (.invalidCPF .invalid_cpf) else .ok digits

/-- `CPF.__unicode__` / `CPF.__str__`: `''.join(map(str, self.cpf))`. -/
def CPF.str (cpf : List Nat) : String :=
  String.join (cpf.map toString)

/-- `CPF.__int__`: unconditionally raises `ValueError` (leading zeroes would
be lost). -/
def CPF.int (_ : List Nat) : Except PyError Int :=
  .error .valueError

/-- `CPF.__getitem__(i)`: `return self.cpf[i]`, i.e. Python list indexing with
an int index: a negative index `i` counts from the end (`i + len`), and an
index outside `[-len, len)` raises `IndexError`. -/
def CPF.getitem (cpf : List Nat) (i : Int) : Except PyError Nat :=
  let j : Int := if i < 0 then i + cpf.length else i
  if h : 0 ≤ j ∧ j < (cpf.length : Int) then .ok (cpf.get ⟨j.toNat, by omega⟩)
  else .error .indexError

/-- A Python value handed to `CPF.__eq__`: either a constructed `CPF` object
(its digit list) or some non-`CPF` value. -/
inductive PyValue
  | cpfObj (cpf : List Nat)
  | strObj (s : String)
  | intObj (n : Int)
  | noneObj
deriving DecidableEq

/-- `CPF.__eq__`: `isinstance(other, CPF) and self.cpf == other.cpf`. -/
def CPF.eq (self : List Nat) : PyValue → Bool
  | .cpfObj other => self == other
  | _ => false

/-- `CPF.__len__`: `return 11`. -/
def CPF.len (_ : List Nat) : Nat := 11

/-- `CPF.__nonzero__`: `return True`. -/
def CPF.nonzero (_ : List Nat) : Bool := true

/-- The `CPF.formated` property: with `cpf = str(self)`, returns
`cpf[:3] + '.' + cpf[3:6] + '.' + cpf[6:9] + '-' + cpf[9:]`
(built by `''.join` in the source). -/
def CPF.formated (cpf : List Nat) : String :=
  let s := CPF.str cpf
  String.join [String.mk (s.data.take 3), ".", String.mk ((s.data.drop 3).take 3), ".",
               String.mk ((s.data.drop 6).take 3), "-", String.mk (s.data.drop 9)]

/-- The shape `DDD.DDD.DDD-DD` of the spec (regex `\d{3}\.\d{3}\.\d{3}-\d{2}`):
14 characters, digits everywhere except `'.'` at positions 3 and 7 and `'-'`
at position 11. -/
def matchesCpfMask (s : String) : Bool :=
  match s.data with
  | [a, b, c, p1, d, e, f, p2, g, h, i, dash, j, k] =>
    a.isDigit && b.isDigit && c.isDigit && p1 == '.' &&
    d.isDigit && e.isDigit && f.isDigit && p2 == '.' &&
    g.isDigit && h.isDigit && i.isDigit && dash == '-' &&
    j.isDigit && k.isDigit
  | _ => false


theorem char_isDigit_iff {c : Char} : c.isDigit = true ↔ 48 ≤ c.toNat ∧ c.toNat ≤ 57 := by
  simp [Char.isDigit, UInt32.le_def, BitVec.le_def, Char.toNat, UInt32.toNat, ge_iff_le]

theorem toString_pyCharToInt {c : Char} (h : c.isDigit = true) :
    toString (pyCharToInt c) = String.mk [c] := by
  have hb := char_isDigit_iff.mp h
  have h10 : c.toNat = 48 ∨ c.toNat = 49 ∨ c.toNat = 50 ∨ c.toNat = 51 ∨ c.toNat = 52 ∨
      c.toNat = 53 ∨ c.toNat = 54 ∨ c.toNat = 55 ∨ c.toNat = 56 ∨ c.toNat = 57 := by omega
  have hc := (Char.ofNat_toNat c).symm
  rcases h10 with h' | h' | h' | h' | h' | h' | h' | h' | h' | h' <;>
    rw [h'] at hc <;> subst hc <;> decide

theorem pyCharToInt_lt {c : Char} (h : c.isDigit = true) : pyCharToInt c < 10 := by
  have hb := char_isDigit_iff.mp h
  unfold pyCharToInt
  omega

theorem digit_ne_sep {c : Char} (h : c.isDigit = true) : (c != '-' && c != '.') = true := by
  by_cases h1 : c = '-'
  · subst h1; simp at h
  · by_cases h2 : c = '.'
    · subst h2; simp at h
    · simp [h1, h2]

theorem toString_nat_digit {n : Nat} (h : n < 10) : toString n = String.mk [Nat.digitChar n] := by
  interval_cases n <;> decide

theorem digitChar_isDigit {n : Nat} (h : n < 10) : (Nat.digitChar n).isDigit = true := by
  interval_cases n <;> decide

theorem pyStrIntList_head (xs : List Nat) : (pyStrIntList xs).data.head? = some '[' := by
  unfold pyStrIntList
  rw [String.data_append, String.data_append]
  rfl

theorem pyStrIntList_not_mem (xs : List Nat) : invalid_cpfs.contains (pyStrIntList xs) = false := by
  have h2 : ∀ t ∈ invalid_cpfs, t.data.head? ≠ some '[' := by decide
  by_contra hc
  rw [Bool.not_eq_false, List.contains_eq_any_beq, List.any_eq_true] at hc
  obtain ⟨t, ht, hbeq⟩ := hc
  have : pyStrIntList xs = t := by exact eq_of_beq hbeq
  exact h2 t ht (this ▸ pyStrIntList_head xs)

theorem foldl_append_singletons (l : List Char) (init : String) :
    (l.map fun c => String.mk [c]).foldl (fun r s => r ++ s) init = String.mk (init.data ++ l) := by
  induction l generalizing init with
  | nil => simp
  | cons c cs ih =>
    simp only [List.map_cons, List.foldl_cons, ih, String.data_append]
    simp

theorem join_singletons (l : List Char) :
    String.join (l.map fun c => String.mk [c]) = String.mk l := by
  rw [String.join, foldl_append_singletons]
  rfl

theorem CPF.str_eq_digitChar {cpf : List Nat} (h : ∀ d ∈ cpf, d < 10) :
    CPF.str cpf = String.mk (cpf.map Nat.digitChar) := by
  unfold CPF.str
  rw [List.map_congr_left (fun d hd => toString_nat_digit (h d hd)),
      show (cpf.map fun d => String.mk [Nat.digitChar d]) =
        ((cpf.map Nat.digitChar).map fun c => String.mk [c]) by rw [List.map_map]; rfl]
  exact join_singletons _

theorem CPF.str_eq_of_digit_chars {l : List Char} (h : ∀ c ∈ l, c.isDigit = true) :
    CPF.str (l.map pyCharToInt) = String.mk l := by
  unfold CPF.str
  rw [List.map_map,
      List.map_congr_left (f := toString ∘ pyCharToInt)
        (g := fun c => String.mk [c]) (fun c hc => toString_pyCharToInt (h c hc))]
  exact join_singletons _

theorem normalizeInput_of_digits {s : String} (hd : s.data.all Char.isDigit = true) :
    normalizeInput (.str s) = s := by
  have h0 : normalizeInput (.str s) =
      String.mk (s.data.filter fun c => c != '-' && c != '.') := rfl
  rw [h0, List.filter_eq_self.mpr (fun c hc => digit_ne_sep (List.all_eq_true.mp hd c hc))]

theorem pyIsdigit_of {s : String} (hd : s.data.all Char.isDigit = true) (hne : s.data ≠ []) :
    pyIsdigit s = true := by
  unfold pyIsdigit
  simp [hd, hne]

theorem string_length_data (s : String) : s.length = s.data.length := rfl

theorem CPF.init_ok {inp : CPFInput} {ds : List Nat} (h : CPF.init inp = .ok ds) :
    ds = (normalizeInput inp).data.map pyCharToInt ∧ pyIsdigit (normalizeInput inp) = true ∧
      (normalizeInput inp).length = 11 := by
  simp only [CPF.init] at h
  split at h
  · exact absurd h (by simp)
  · split at h
    · exact absurd h (by simp)
    · rename_i h1 h2
      split at h
      · exact absurd h (by simp)
      · split at h
        · exact absurd h (by simp)
        · exact ⟨(Except.ok.inj h).symm, by simpa using h1, by simpa using h2⟩

theorem CPF.init_ok_digits {inp : CPFInput} {ds : List Nat} (h : CPF.init inp = .ok ds) :
    ds.length = 11 ∧ ∀ d ∈ ds, d < 10 := by
  obtain ⟨hds, hdig, hlen⟩ := CPF.init_ok h
  subst hds
  constructor
  · rw [List.length_map, ← string_length_data, hlen]
  · intro d hd
    obtain ⟨c, hc, rfl⟩ := List.mem_map.mp hd
    have := List.all_eq_true.mp ((Bool.and_eq_true _ _).mp hdig).2 c hc
    exact pyCharToInt_lt (by simpa using this)

theorem CPF.init_of_digits {s : String} (hd : s.data.all Char.isDigit = true)
    (hl : s.length = 11) :
    CPF.init (.str s) =
      if derive ((s.data.map pyCharToInt).take 9) = s.data.map pyCharToInt
      then .ok (s.data.map pyCharToInt)
      else .error (.invalidCPF .invalid_cpf) := by
  have hne : s.data ≠ [] := by
    intro hnil
    rw [string_length_data, hnil] at hl
    simp at hl
  have hnorm := normalizeInput_of_digits hd
  have hdig := pyIsdigit_of hd hne
  have hlen11 : (s.data.map pyCharToInt).length = 11 := by
    rw [List.length_map, ← string_length_data, hl]
  have hempty : (s.data.map pyCharToInt).isEmpty = false := by
    rw [List.isEmpty_eq_false_iff_exists_mem]
    obtain ⟨c, cs, hcs⟩ := List.exists_cons_of_ne_nil hne
    exact ⟨pyCharToInt c, by rw [hcs]; simp⟩
  simp only [CPF.init, hnorm, hdig, Bool.not_true, Bool.false_eq_true, if_false, hl,
    bne_self_eq_false, CPF.is_valid, hempty, pyStrIntList_not_mem, ite_false]
  rcases hbeq : derive ((s.data.map pyCharToInt).take 9) == s.data.map pyCharToInt with _ | _
  · have hne' : derive ((s.data.map pyCharToInt).take 9) ≠ s.data.map pyCharToInt := by
      simpa using hbeq
    rw [if_neg hne']
    simp
  · have heq' : derive ((s.data.map pyCharToInt).take 9) = s.data.map pyCharToInt := by
      simpa using hbeq
    rw [if_pos heq']
    simp

deriving instance DecidableEq for Except

theorem exists_eleven {α : Type} {l : List α} (h : l.length = 11) :
    ∃ a b c d e f g h1 i j k, l = [a, b, c, d, e, f, g, h1, i, j, k] := by
  rcases l with _ | ⟨a, l⟩; · simp at h
  rcases l with _ | ⟨b, l⟩; · simp at h
  rcases l with _ | ⟨c, l⟩; · simp at h
  rcases l with _ | ⟨d, l⟩; · simp at h
  rcases l with _ | ⟨e, l⟩; · simp at h
  rcases l with _ | ⟨f, l⟩; · simp at h
  rcases l with _ | ⟨g, l⟩; · simp at h
  rcases l with _ | ⟨h1, l⟩; · simp at h
  rcases l with _ | ⟨i, l⟩; · simp at h
  rcases l with _ | ⟨j, l⟩; · simp at h
  rcases l with _ | ⟨k, l⟩; · simp at h
  rcases l with _ | ⟨x, l⟩
  · exact ⟨a, b, c, d, e, f, g, h1, i, j, k, rfl⟩
  · simp at h

/-- Claim C1 (confirmed): for every 11-digit normalized input, construction
succeeds past the check-digit step iff the sequence derived from the first 9
digits by the weighted-sum modulo-11 algorithm equals the input position by
position: `derive` twice computes `r = (sum of (n + 1 - i) * digit_i) % 11`
over the working sequence of current length `n` (9, then 10) and appends `0`
if `r <= 1` and `11 - r` otherwise; and the derived sequence depends on the
first 9 digits alone (the degenerate-sequence branch never fires, see
`pyStrIntList_not_mem`, so the check-digit comparison alone decides). -/
theorem check_digit_characterization (s : String) (hd : s.data.all Char.isDigit = true)
    (hl : s.length = 11) :
    ((∃ ds, CPF.init (.str s) = .ok ds) ↔
      derive ((s.data.map pyCharToInt).take 9) = s.data.map pyCharToInt) ∧
    (∀ t : List Nat, t.take 9 = (s.data.map pyCharToInt).take 9 →
      derive (t.take 9) = derive ((s.data.map pyCharToInt).take 9)) := by
  constructor
  · rw [CPF.init_of_digits hd hl]
    constructor
    · rintro ⟨ds, hds⟩
      by_contra hne
      rw [if_neg hne] at hds
      simp at hds
    · intro heq
      rw [if_pos heq]
      exact ⟨_, rfl⟩
  · intro t ht
    rw [ht]

/-- Claim C2 (code bug): the spec requires `parse("11111111111")` to fail with
`InvalidIdentifier`, and the source comment ("by calculation, cpfs with same
number in all size is valid, but it isnt") shows the same intent; but
`is_valid` compares `str(self.cpf)` — the Python `str` of a list of ints,
i.e. `"[1, 1, ...]"` — against the plain digit strings, which never matches,
and the arithmetic check accepts every repeated digit, so construction
succeeds. -/
theorem repeated_digits_accepted :
    CPF.init (.str "11111111111") = .ok [1, 1, 1, 1, 1, 1, 1, 1, 1, 1, 1] ∧
    CPF.init (.str "11111111111") ≠ .error (.invalidCPF .invalid_cpf) ∧
    CPF.is_valid [1, 1, 1, 1, 1, 1, 1, 1, 1, 1, 1] = .ok true := by decide

/-- Claim C3 (confirmed): for every input string of exactly 11 decimal digits
accepted by the constructor, the string form of the constructed object equals
the input, i.e. `str(parse(s)) == s`. -/
theorem roundtrip (s : String) (ds : List Nat) (hd : s.data.all Char.isDigit = true)
    (_hl : s.length = 11) (h : CPF.init (.str s) = .ok ds) : CPF.str ds = s := by
  obtain ⟨hds, -, -⟩ := CPF.init_ok h
  subst hds
  rw [normalizeInput_of_digits hd,
      CPF.str_eq_of_digit_chars (fun c hc => List.all_eq_true.mp hd c hc)]

/-- Claim C5 (confirmed): equality is structural and separator-insensitive:
two constructed objects are equal iff their canonical 11-digit lists are
equal; `parse("290.571.393-32")` and `parse("29057139332")` yield the same
digit list; and a `CPF` object is never equal to a non-`CPF` value. -/
theorem eq_structural :
    (∀ a b : List Nat, CPF.eq a (.cpfObj b) = true ↔ a = b) ∧
    (∃ ds, CPF.init (.str "290.571.393-32") = .ok ds ∧
      CPF.init (.str "29057139332") = .ok ds) ∧
    (∀ (a : List Nat) (v : PyValue), (∀ b, v ≠ .cpfObj b) → CPF.eq a v = false) := by
  refine ⟨?_, ⟨[2, 9, 0, 5, 7, 1, 3, 9, 3, 3, 2], by decide, by decide⟩, ?_⟩
  · intro a b
    simp [CPF.eq]
  · intro a v hv
    cases v with
    | cpfObj b => exact absurd rfl (hv b)
    | strObj s => rfl
    | intObj n => rfl
    | noneObj => rfl

/-- Claim C8 (confirmed): integer conversion of every successfully
constructed object fails with a `ValueError`, unconditionally. -/
theorem int_conversion_always_fails {inp : CPFInput} {ds : List Nat}
    (_h : CPF.init inp = .ok ds) : CPF.int ds = .error .valueError := rfl

/-- Claim C9 (confirmed): every successfully constructed object stores exactly
11 digits, each in 0..9, its length accessor reports 11 and its truthiness
flag is `True`. -/
theorem construction_invariants {inp : CPFInput} {ds : List Nat} (h : CPF.init inp = .ok ds) :
    ds.length = 11 ∧ (∀ d ∈ ds, d < 10) ∧ CPF.len ds = 11 ∧ CPF.nonzero ds = true := by
  obtain ⟨h1, h2⟩ := CPF.init_ok_digits h
  exact ⟨h1, h2, rfl, rfl⟩

/-- Claim C10 (confirmed): every negative integer input fails with the
`only_digits` error: its decimal string form starts with a minus sign, so the
digit-only check fails before the length check. -/
theorem negative_int_rejected (n : Int) (h : n < 0) :
    CPF.init (.int n) = .error (.invalidCPF .only_digits) := by
  obtain ⟨m, rfl⟩ : ∃ m, n = Int.negSucc m := by
    cases n with
    | ofNat k => exact absurd h (Int.not_lt.mpr (Int.ofNat_nonneg k))
    | negSucc m => exact ⟨m, rfl⟩
  have hdig : pyIsdigit (normalizeInput (.int (Int.negSucc m))) = false := by
    have hnorm : normalizeInput (.int (Int.negSucc m)) = "-" ++ toString (m + 1) := rfl
    rw [hnorm]
    unfold pyIsdigit
    rw [String.data_append]
    simp [show ("-" : String).data = ['-'] from rfl,
      show ('-').isDigit = false from rfl]
  simp only [CPF.init, hdig, Bool.not_false, if_true]

/-- Claim C7 (corrected): validation fails fast in the order digit-only,
length, degenerate, checksum. Any input whose normalized string contains a
non-digit character fails with `only_digits` (even if the length is also
wrong); any input whose normalized string is NONEMPTY, all digits, and not
of length 11 fails with `max_digits`. The correction: an input whose
normalized string is empty (e.g. `""` or `".."`) is vacuously all digits and
has wrong length, but fails with `only_digits`, because Python's `isdigit`
is false on the empty string — see `empty_normalized_gives_only_digits`. -/
theorem validation_order (inp : CPFInput) :
    (∀ c ∈ (normalizeInput inp).data, c.isDigit = false →
      CPF.init inp = .error (.invalidCPF .only_digits)) ∧
    ((normalizeInput inp).data ≠ [] → (normalizeInput inp).data.all Char.isDigit = true →
      (normalizeInput inp).length ≠ 11 → CPF.init inp = .error (.invalidCPF .max_digits)) ∧
    ((normalizeInput inp).data = [] → CPF.init inp = .error (.invalidCPF .only_digits)) := by
  refine ⟨?_, ?_, ?_⟩
  · intro c hc hcd
    have hdig : pyIsdigit (normalizeInput inp) = false := by
      unfold pyIsdigit
      have hall : (normalizeInput inp).data.all Char.isDigit = false := by
        rw [List.all_eq_false]
        exact ⟨c, hc, by simp [hcd]⟩
      simp [hall]
    simp only [CPF.init, hdig, Bool.not_false, if_true]
  · intro hne hall hlen
    have hdig : pyIsdigit (normalizeInput inp) = true := pyIsdigit_of hall hne
    simp only [CPF.init, hdig, Bool.not_true, Bool.false_eq_true, if_false]
    rw [if_pos (by simpa using hlen)]
  · intro hnil
    have hdig : pyIsdigit (normalizeInput inp) = false := by
      unfold pyIsdigit
      rw [hnil]
      rfl
    simp only [CPF.init, hdig, Bool.not_false, if_true]

/-- Claim C7 counterexample: the input `""` normalizes to the empty string,
every character of which is (vacuously) a decimal digit, and its length is
not 11, yet construction fails with `only_digits`, not `max_digits` as the
claim as stated requires. -/
theorem empty_normalized_gives_only_digits :
    (normalizeInput (.str "")).data.all Char.isDigit = true ∧
    (normalizeInput (.str "")).length ≠ 11 ∧
    CPF.init (.str "") = .error (.invalidCPF .only_digits) ∧
    CPF.init (.str "") ≠ .error (.invalidCPF .max_digits) := by
  exact ⟨by decide, by decide, by decide, by decide⟩

/-- Claim C6 counterexample: on the identifier parsed from `"87234238115"`,
`digitAt(-1)` does not fail with an indexing error as the claim states: it
returns the last digit `5` (Python list indexing supports negative
indices). -/
theorem getitem_neg_one_succeeds :
    CPF.init (.str "87234238115") = .ok [8, 7, 2, 3, 4, 2, 3, 8, 1, 1, 5] ∧
    CPF.getitem [8, 7, 2, 3, 4, 2, 3, 8, 1, 1, 5] (-1) = .ok 5 ∧
    CPF.getitem [8, 7, 2, 3, 4, 2, 3, 8, 1, 1, 5] (-1) ≠ .error .indexError := by decide

/-- Claim C6 (corrected): indexed access on a constructed object returns the
digit at position `i` without error for `0 <= i <= 10`, and for negative
`-11 <= i <= -1` returns the digit at position `i + 11` (Python negative
indexing) — in particular `digitAt(-1)` succeeds; an indexing error is
raised exactly for `i >= 11` and `i < -11`. -/
theorem getitem_index_semantics {inp : CPFInput} {ds : List Nat}
    (h : CPF.init inp = .ok ds) :
    (∀ i : Int, 0 ≤ i → i ≤ 10 →
      ∃ hlt : i.toNat < ds.length, CPF.getitem ds i = .ok (ds.get ⟨i.toNat, hlt⟩)) ∧
    (∀ i : Int, -11 ≤ i → i < 0 →
      ∃ hlt : (i + 11).toNat < ds.length, CPF.getitem ds i = .ok (ds.get ⟨(i + 11).toNat, hlt⟩)) ∧
    (∀ i : Int, 11 ≤ i ∨ i < -11 → CPF.getitem ds i = .error .indexError) := by
  obtain ⟨hlen, -⟩ := CPF.init_ok_digits h
  have hcast : (ds.length : Int) = 11 := by rw [hlen]; rfl
  refine ⟨?_, ?_, ?_⟩
  · intro i h0 h10
    refine ⟨by omega, ?_⟩
    simp only [CPF.getitem, if_neg (show ¬ i < 0 from by omega), hcast]
    rw [dif_pos ⟨h0, by omega⟩]
  · intro i hm11 hneg
    refine ⟨by omega, ?_⟩
    simp only [CPF.getitem, if_pos hneg, hcast]
    rw [dif_pos ⟨by omega, by omega⟩]
  · intro i hout
    rcases hout with hbig | hsmall
    · simp only [CPF.getitem, if_neg (show ¬ i < 0 from by omega)]
      rw [dif_neg (by omega)]
    · simp only [CPF.getitem, if_pos (show i < 0 from by omega)]
      rw [dif_neg (by omega)]

theorem deriveLoop_fuel_irrelevant :
    ∀ (f1 f2 : Nat) (cpf : List Nat), 11 - cpf.length ≤ f1 → 11 - cpf.length ≤ f2 →
      deriveLoop f1 cpf = deriveLoop f2 cpf := by
  intro f1
  induction f1 with
  | zero =>
    intro f2 cpf h1 h2
    cases f2 with
    | zero => rfl
    | succ f2 =>
      simp only [deriveLoop]
      rw [if_neg (by omega)]
  | succ f1 ih =>
    intro f2 cpf h1 h2
    cases f2 with
    | zero =>
      simp only [deriveLoop]
      rw [if_neg (by omega)]
    | succ f2 =>
      by_cases hlen : cpf.length < 11
      · simp only [deriveLoop, if_pos hlen]
        exact ih f2 _ (by simp; omega) (by simp; omega)
      · simp only [deriveLoop, if_neg hlen]

theorem digit_strip {c : Char} (h : c.isDigit = true) : (c != '.' && c != '-') = true := by
  by_cases h1 : c = '-'
  · subst h1; simp at h
  · by_cases h2 : c = '.'
    · subst h2; simp at h
    · simp [h1, h2]

/-- Claim C4 (confirmed): the formatted form of every successfully
constructed object has the shape `DDD.DDD.DDD-DD`, and stripping the `'.'`
and `'-'` separators from it yields exactly the 11-digit canonical string
form. -/
theorem formated_shape {inp : CPFInput} {ds : List Nat} (h : CPF.init inp = .ok ds) :
    matchesCpfMask (CPF.formated ds) = true ∧
    String.mk ((CPF.formated ds).data.filter fun c => c != '.' && c != '-') = CPF.str ds := by
  obtain ⟨hlen, hdig⟩ := CPF.init_ok_digits h
  obtain ⟨a, b, c, d, e, f, g, h1, i, j, k, rfl⟩ := exists_eleven hlen
  have hstr := CPF.str_eq_digitChar hdig
  have hD : ∀ x ∈ [a, b, c, d, e, f, g, h1, i, j, k], (Nat.digitChar x).isDigit = true :=
    fun x hx => digitChar_isDigit (hdig x hx)
  simp only [List.mem_cons, List.not_mem_nil, or_false, forall_eq_or_imp, forall_eq] at hD
  obtain ⟨hA, hB, hC, hD4, hE, hF, hG, hH, hI, hJ, hK⟩ := hD
  have hdata : (CPF.formated [a, b, c, d, e, f, g, h1, i, j, k]).data =
      [Nat.digitChar a, Nat.digitChar b, Nat.digitChar c, '.', Nat.digitChar d,
       Nat.digitChar e, Nat.digitChar f, '.', Nat.digitChar g, Nat.digitChar h1,
       Nat.digitChar i, '-', Nat.digitChar j, Nat.digitChar k] := by
    unfold CPF.formated
    rw [hstr]
    simp [String.join, String.data_append]
  constructor
  · unfold matchesCpfMask
    rw [hdata]
    simp [hA, hB, hC, hD4, hE, hF, hG, hH, hI, hJ, hK]
  · rw [hdata, hstr]
    simp [List.filter, digit_strip, hA, hB, hC, hD4, hE, hF, hG, hH, hI, hJ, hK]

theorem check_digit_characterization_witness :
    ("87234238115" : String).data.all Char.isDigit = true ∧
    ("87234238115" : String).length = 11 ∧
    (∃ ds, CPF.init (.str "87234238115") = .ok ds) :=
  ⟨by decide, by decide,
    (check_digit_characterization "87234238115" (by decide) (by decide)).1.mpr (by decide)⟩

theorem roundtrip_witness : CPF.str [8, 7, 2, 3, 4, 2, 3, 8, 1, 1, 5] = "87234238115" :=
  roundtrip "87234238115" [8, 7, 2, 3, 4, 2, 3, 8, 1, 1, 5] (by decide) (by decide) (by decide)

theorem formated_shape_witness :
    matchesCpfMask (CPF.formated [8, 7, 2, 3, 4, 2, 3, 8, 1, 1, 5]) = true ∧
    String.mk ((CPF.formated [8, 7, 2, 3, 4, 2, 3, 8, 1, 1, 5]).data.filter
      fun c => c != '.' && c != '-') = CPF.str [8, 7, 2, 3, 4, 2, 3, 8, 1, 1, 5] :=
  @formated_shape (.str "87234238115") [8, 7, 2, 3, 4, 2, 3, 8, 1, 1, 5] (by decide)

theorem eq_structural_witness :
    CPF.eq [2, 9, 0, 5, 7, 1, 3, 9, 3, 3, 2] (.cpfObj [2, 9, 0, 5, 7, 1, 3, 9, 3, 3, 2]) = true ∧
    CPF.eq [2, 9, 0, 5, 7, 1, 3, 9, 3, 3, 2] .noneObj = false :=
  ⟨(eq_structural.1 _ _).mpr rfl,
   eq_structural.2.2 _ .noneObj (fun _ h => PyValue.noConfusion h)⟩

theorem getitem_index_semantics_witness :
    CPF.getitem [8, 7, 2, 3, 4, 2, 3, 8, 1, 1, 5] 11 = .error .indexError :=
  (@getitem_index_semantics (.str "87234238115") [8, 7, 2, 3, 4, 2, 3, 8, 1, 1, 5]
    (by decide)).2.2 11 (Or.inl (by decide))

theorem validation_order_witness :
    CPF.init (.str "2905713933X") = .error (.invalidCPF .only_digits) ∧
    CPF.init (.str "123") = .error (.invalidCPF .max_digits) ∧
    CPF.init (.str "123456789012") = .error (.invalidCPF .max_digits) ∧
    CPF.init (.int 123) = .error (.invalidCPF .max_digits) :=
  ⟨(validation_order (.str "2905713933X")).1 'X' (by decide) (by decide),
   (validation_order (.str "123")).2.1 (by decide) (by decide) (by decide),
   (validation_order (.str "123456789012")).2.1 (by decide) (by decide) (by decide),
   (validation_order (.int 123)).2.1 (by decide) (by decide) (by decide)⟩

theorem int_conversion_always_fails_witness :
    CPF.int [8, 7, 2, 3, 4, 2, 3, 8, 1, 1, 5] = .error .valueError :=
  @int_conversion_always_fails (.str "87234238115") [8, 7, 2, 3, 4, 2, 3, 8, 1, 1, 5]
    (by decide)

theorem construction_invariants_witness :
    ([8, 7, 2, 3, 4, 2, 3, 8, 1, 1, 5] : List Nat).length = 11 ∧
    (∀ d ∈ ([8, 7, 2, 3, 4, 2, 3, 8, 1, 1, 5] : List Nat), d < 10) ∧
    CPF.len [8, 7, 2, 3, 4, 2, 3, 8, 1, 1, 5] = 11 ∧
    CPF.nonzero [8, 7, 2, 3, 4, 2, 3, 8, 1, 1, 5] = true :=
  @construction_invariants (.str "87234238115") [8, 7, 2, 3, 4, 2, 3, 8, 1, 1, 5]
    (by decide)

theorem negative_int_rejected_witness :
    CPF.init (.int (-1)) = .error (.invalidCPF .only_digits) :=
  negative_int_rejected (-1) (by decide)

end BrDoc
